import Mathlib

/-!
Verification of the SSDP engine in `crates/upnp-serve/src/ssdp.rs`.

Datagrams and header values are modelled as lists of byte values
(`List Nat`, each element < 256 on real inputs).  ASCII string literals
are injected with `ascii`, which is byte-accurate for the ASCII text the
engine works with.  The external `httparse` crate is modelled at the
granularity the SSDP code observes: CRLF line splitting, a request line,
header lines `Name: value` (leading/trailing blanks of the value
stripped), a capacity bound on the number of headers, and termination of
the header section by an empty line.
-/

namespace Ssdp

/-- Byte values of an ASCII string literal (byte-accurate for ASCII text). -/
def ascii (s : String) : List Nat :=
  s.data.map Char.toNat

/-- The CRLF line terminator. -/
def CRLF : List Nat := [13, 10]

/-- Helper of `splitCRLF`: prepend a byte to the first chunk. -/
def consHead (b : Nat) : List (List Nat) → List (List Nat)
  | [] => [[b]]
  | l :: ls => (b :: l) :: ls

/-- Split a byte list on every occurrence of CRLF (13, 10).  The result is
always non-empty; the final element is the remainder after the last CRLF. -/
def splitCRLF : List Nat → List (List Nat)
  | [] => [[]]
  | 13 :: 10 :: rest => [] :: splitCRLF rest
  | b :: rest => consHead b (splitCRLF rest)

/-- Split a list at the first occurrence of the byte `sep`, returning the
bytes before it and the bytes after it. -/
def splitAtByte (sep : Nat) : List Nat → Option (List Nat × List Nat)
  | [] => none
  | b :: rest =>
    if b = sep then some ([], rest)
    else
      match splitAtByte sep rest with
      | none => none
      | some (pre, post) => some (b :: pre, post)

/-- Drop leading spaces (32) and horizontal tabs (9). -/
def stripLeadingWS : List Nat → List Nat
  | 32 :: rest => stripLeadingWS rest
  | 9 :: rest => stripLeadingWS rest
  | l => l

/-- Drop trailing spaces and horizontal tabs. -/
def stripTrailingWS (l : List Nat) : List Nat :=
  (stripLeadingWS l.reverse).reverse

/-- One parsed header, as `httparse` exposes it: the name as it appeared on
the wire and the value with surrounding blanks stripped. -/
structure HttparseHeader where
  name : List Nat
  value : List Nat
deriving DecidableEq, Repr

/-- Parse one header line `Name: value` (model of the `httparse` crate's
header parsing): the name is everything before the first colon and must be
non-empty and blank-free; the value is the remainder with leading and
trailing blanks stripped. -/
def parseHeaderLine (line : List Nat) : Option HttparseHeader :=
  match splitAtByte 58 line with
  | none => none
  | some (name, rest) =>
    if name = [] ∨ name.any (fun b => b == 32 || b == 9) then none
    else some ⟨name, stripTrailingWS (stripLeadingWS rest)⟩

/-- Errors of the modelled `try_parse_ssdp`, distinguishing the `httparse`
failure modes the SSDP code can hit from its own missing-header bail. -/
inductive SsdpParseError where
  | malformed
  | tooManyHeaders
  | missingHeaders
deriving DecidableEq, Repr

/-- Parse the header section from the CRLF-split lines (model of
`httparse`): headers accumulate until an empty line; running past `maxH`
headers is the `TooManyHeaders` error (the SSDP code passes a 16-slot
array); a missing empty line is an incomplete message. -/
def parseHeaderLines (maxH : Nat) : List (List Nat) → Except SsdpParseError (List HttparseHeader)
  | [] => .error .malformed
  | [] :: _ => .ok []
  | line :: rest =>
    match maxH with
    | 0 => .error .tooManyHeaders
    | maxH' + 1 =>
      match parseHeaderLine line with
      | none => .error .malformed
      | some h =>
        match parseHeaderLines maxH' rest with
        | .error e => .error e
        | .ok hs => .ok (h :: hs)

/-- Parse a request line `METHOD uri HTTP/1.x`, returning the method bytes
(model of `httparse`'s request-line parsing at the fidelity the SSDP code
observes). -/
def parseRequestLine (line : List Nat) : Option (List Nat) :=
  match splitAtByte 32 line with
  | none => none
  | some (method, rest) =>
    match splitAtByte 32 rest with
    | none => none
    | some (uri, version) =>
      if method ≠ [] ∧ uri ≠ [] ∧ (version = ascii "HTTP/1.1" ∨ version = ascii "HTTP/1.0") then
        some method
      else none

/-- Mirror of `SsdpMSearchRequest` (`ssdp.rs`): the HOST, MAN and ST header
values of an M-SEARCH request. -/
structure SsdpMSearchRequest where
  host : List Nat
  man : List Nat
  st : List Nat
deriving DecidableEq, Repr

/-- Mirror of `SsdpMessage` (`ssdp.rs`). The payloads of `OtherRequest` and
`Response` are never inspected by the SSDP code, so they are not carried. -/
inductive SsdpMessage where
  | MSearch (r : SsdpMSearchRequest)
  | OtherRequest
  | Response
deriving DecidableEq, Repr

/-- Modelled from the spec: `crates/upnp-serve/src/constants.rs` is not in
the source tree; per the spec the device kinds are the literal strings
`upnp:rootdevice` and `urn:schemas-upnp-org:device:MediaServer:1`. -/
def UPNP_KIND_ROOT_DEVICE : List Nat := ascii "upnp:rootdevice"

/-- Modelled from the spec: the MediaServer device kind string. -/
def UPNP_KIND_MEDIASERVER : List Nat := ascii "urn:schemas-upnp-org:device:MediaServer:1"

/-- Mirror of `SsdpMSearchRequest::matches_media_server` (`ssdp.rs` lines
47-57). -/
def matches_media_server (r : SsdpMSearchRequest) : Bool :=
  if r.man ≠ ascii "\"ssdp:discover\"" then false
  else if r.st = UPNP_KIND_ROOT_DEVICE ∨ r.st = UPNP_KIND_MEDIASERVER then true
  else false

/-- Recognizer for the HOST header name, mirroring the match arm
`"HOST" | "Host" | "host"` in `try_parse_ssdp`. -/
def isHostName (n : List Nat) : Bool :=
  n = ascii "HOST" || n = ascii "Host" || n = ascii "host"

/-- Recognizer for the MAN header name (`"MAN" | "Man" | "man"`). -/
def isManName (n : List Nat) : Bool :=
  n = ascii "MAN" || n = ascii "Man" || n = ascii "man"

/-- Recognizer for the ST header name (`"ST" | "St" | "st"`). -/
def isStName (n : List Nat) : Bool :=
  n = ascii "ST" || n = ascii "St" || n = ascii "st"

/-- Accumulator of the header scan in `try_parse_ssdp`: the mutable
`host`/`man`/`st` locals. -/
structure ScanAcc where
  host : Option (List Nat)
  man : Option (List Nat)
  st : Option (List Nat)
deriving DecidableEq, Repr

/-- One step of the header scan loop in `try_parse_ssdp` (lines 78-85). -/
def scanStep (acc : ScanAcc) (h : HttparseHeader) : ScanAcc :=
  if isHostName h.name then { acc with host := some h.value }
  else if isManName h.name then { acc with man := some h.value }
  else if isStName h.name then { acc with st := some h.value }
  else acc

/-- The header scan loop of `try_parse_ssdp`: fold over the parsed headers,
later recognized occurrences overwriting earlier ones. -/
def scanMSearchHeaders (hs : List HttparseHeader) : ScanAcc :=
  hs.foldl scanStep ⟨none, none, none⟩

deriving instance DecidableEq for Except

/-- Mirror of `try_parse_ssdp` (`ssdp.rs` lines 59-100) over the `httparse`
model: a buffer starting with `HTTP/` parses as a response; otherwise the
request line and headers are parsed (`maxH` is the caller's header-array
capacity), an `M-SEARCH` method triggers the HOST/MAN/ST scan, and any of
the three missing is the missing-headers bail. -/
def try_parse_ssdp (maxH : Nat) (buf : List Nat) : Except SsdpParseError SsdpMessage :=
  if (ascii "HTTP/").isPrefixOf buf then
    match splitCRLF buf with
    | [] => .error .malformed
    | _ :: rest =>
      match parseHeaderLines maxH rest with
      | .error e => .error e
      | .ok _ => .ok .Response
  else
    match splitCRLF buf with
    | [] => .error .malformed
    | reqline :: rest =>
      match parseRequestLine reqline with
      | none => .error .malformed
      | some method =>
        match parseHeaderLines maxH rest with
        | .error e => .error e
        | .ok hs =>
          if method = ascii "M-SEARCH" then
            match scanMSearchHeaders hs with
            | ⟨some host, some man, some st⟩ => .ok (.MSearch ⟨host, man, st⟩)
            | _ => .error .missingHeaders
          else .ok .OtherRequest

/-- An IPv4 address as four octets (mirror of `std::net::Ipv4Addr`). -/
structure Ipv4Addr where
  o0 : Nat
  o1 : Nat
  o2 : Nat
  o3 : Nat
deriving DecidableEq, Repr

/-- Mirror of `std::net::Ipv4Addr::is_private`: 10.0.0.0/8, 172.16.0.0/12
and 192.168.0.0/16. -/
def Ipv4Addr.is_private (a : Ipv4Addr) : Bool :=
  a.o0 = 10 ∨ (a.o0 = 172 ∧ 16 ≤ a.o1 ∧ a.o1 ≤ 31) ∨ (a.o0 = 192 ∧ a.o1 = 168)

/-- Mirror of `std::net::Ipv4Addr::is_loopback`: 127.0.0.0/8. -/
def Ipv4Addr.is_loopback (a : Ipv4Addr) : Bool :=
  a.o0 = 127

/-- An IPv6 address as eight 16-bit segments (mirror of
`std::net::Ipv6Addr` viewed through `segments()`). -/
structure Ipv6Addr where
  s0 : Nat
  s1 : Nat
  s2 : Nat
  s3 : Nat
  s4 : Nat
  s5 : Nat
  s6 : Nat
  s7 : Nat
deriving DecidableEq, Repr

/-- Mirror of `std::net::Ipv6Addr::is_loopback`: the address `::1`. -/
def Ipv6Addr.is_loopback (a : Ipv6Addr) : Bool :=
  a = ⟨0, 0, 0, 0, 0, 0, 0, 1⟩

/-- Mirror of `ipv6_is_link_local` (`ssdp.rs` lines 25-28): the first four
segments must equal `[0xfe80, 0, 0, 0]`. -/
def ipv6_is_link_local (a : Ipv6Addr) : Bool :=
  [a.s0, a.s1, a.s2, a.s3] = [0xfe80, 0, 0, 0]

/-- An IP address of either family (mirror of `std::net::IpAddr`). -/
inductive IpAddr where
  | V4 (a : Ipv4Addr)
  | V6 (a : Ipv6Addr)
deriving DecidableEq, Repr

/-- A socket address (mirror of `std::net::SocketAddr`; `V6` carries the
scope id, flowinfo is always 0 in the SSDP code and is omitted). -/
inductive SockAddr where
  | V4 (ip : Ipv4Addr) (port : Nat)
  | V6 (ip : Ipv6Addr) (port : Nat) (scopeId : Nat)
deriving DecidableEq, Repr

/-- Mirror of `SSDP_PORT`. -/
def SSDP_PORT : Nat := 1900

/-- Mirror of `SSDM_MCAST_IPV4` (239.255.255.250). -/
def SSDM_MCAST_IPV4 : Ipv4Addr := ⟨239, 255, 255, 250⟩

/-- Mirror of `SSDP_MCAST_IPV6_LINK_LOCAL` (ff02::c). -/
def SSDP_MCAST_IPV6_LINK_LOCAL : Ipv6Addr := ⟨0xff02, 0, 0, 0, 0, 0, 0, 0xc⟩

/-- Mirror of `SSDP_MCAST_IPV6_SITE_LOCAL` (ff05::c). -/
def SSDP_MCAST_IPV6_SITE_LOCAL : Ipv6Addr := ⟨0xff05, 0, 0, 0, 0, 0, 0, 0xc⟩

/-- Mirror of `MulticastOpts` (`ssdp.rs` lines 212-217). -/
structure MulticastOpts where
  local_interface_ip : IpAddr
  local_interface_id : Nat
  addr : SockAddr
deriving DecidableEq, Repr

/-- One NIC as enumerated by the `network_interface` crate: its OS index
and its addresses. -/
structure NetworkInterface where
  index : Nat
  addrs : List IpAddr
deriving DecidableEq, Repr

/-- The `filter_map` closure of `try_send_mcast_everywhere` (`ssdp.rs`
lines 352-373): which interface addresses become multicast targets, and
with which destination. -/
def targetFor (ifidx : Nat) (ip : IpAddr) : Option MulticastOpts :=
  match ip with
  | .V4 a =>
    if ¬ a.is_loopback ∧ a.is_private then
      some ⟨ip, ifidx, .V4 SSDM_MCAST_IPV4 SSDP_PORT⟩
    else none
  | .V6 a =>
    if ¬ a.is_loopback then
      some ⟨ip, ifidx,
        .V6 (if ipv6_is_link_local a then SSDP_MCAST_IPV6_LINK_LOCAL
             else SSDP_MCAST_IPV6_SITE_LOCAL) SSDP_PORT ifidx⟩
    else none

/-- The target list of one broadcast pass: every (interface, address) pair
through `targetFor` (the `flat_map` + `filter_map` of
`try_send_mcast_everywhere`). -/
def mkTargets (nis : List NetworkInterface) : List MulticastOpts :=
  (nis.flatMap fun ni => ni.addrs.map fun a => (ni.index, a)).filterMap
    fun p => targetFor p.1 p.2

/-- The deduplication key of one datagram: payload bytes, interface index,
destination (the tuple inserted into the `sent` set). -/
def SendKey : Type := List Nat × Nat × SockAddr

instance : DecidableEq SendKey := by
  unfold SendKey
  infer_instance

/-- Sequential model of the per-target futures of
`try_send_mcast_everywhere` (lines 374-405): each target computes its
payload, atomically tests-and-inserts its key into the `sent` set (the set
is mutex-protected, so any interleaving of the futures performs the same
atomic insertions), then sends through the family-matching socket if that
socket exists.  Returns the keys of the datagrams actually sent. -/
def passSends (hasV4 hasV6 : Bool) (getPayload : MulticastOpts → List Nat) :
    List MulticastOpts → List SendKey → List SendKey
  | [], _ => []
  | o :: rest, seen =>
    let key : SendKey := (getPayload o, o.local_interface_id, o.addr)
    if key ∈ seen then passSends hasV4 hasV6 getPayload rest seen
    else
      let sockOk := match o.local_interface_ip with
        | .V4 _ => hasV4
        | .V6 _ => hasV6
      if sockOk then key :: passSends hasV4 hasV6 getPayload rest (key :: seen)
      else passSends hasV4 hasV6 getPayload rest (key :: seen)

/-- Mirror of `try_send_mcast_everywhere` (`ssdp.rs` lines 332-408):
enumerate interfaces, build the targets, and run the deduplicated send
pass with an initially empty `sent` set.  The result is the list of sent
datagram keys. -/
def try_send_mcast_everywhere (hasV4 hasV6 : Bool)
    (getPayload : MulticastOpts → List Nat) (nis : List NetworkInterface) : List SendKey :=
  passSends hasV4 hasV6 getPayload (mkTargets nis) []

/-- Mirror of `SsdpRunner::generate_ssdp_discover_response` (`ssdp.rs`
lines 307-330).  `location` stands for the description URL after
`set_ip_host` rewrote its host to the local IP computed by
`librqbit_upnp::get_local_ip_relative_to`; that helper lives outside the
source tree and, per the spec, yields the local IP reachable from the
requester, so it is carried here as an input. -/
def generate_ssdp_discover_response (location usn server st : List Nat) : List Nat :=
  ascii "HTTP/1.1 200 OK\r\nCache-Control: max-age=75\r\nExt: \r\nLocation: " ++ location
    ++ ascii "\r\nServer: " ++ server
    ++ ascii "\r\nSt: " ++ st
    ++ ascii "\r\nUsn: " ++ usn ++ ascii "::" ++ st
    ++ ascii "\r\nContent-Length: 0\r\n\r\n"

/-- Mirror of the M-SEARCH text formatted by
`SsdpRunner::try_send_example_msearch` (`ssdp.rs` lines 484-497), with
`dest` the rendered destination address (`opts.addr_no_scope()`). -/
def format_example_msearch (dest : List Nat) : List Nat :=
  ascii "M-SEARCH * HTTP/1.1\r\nHOST: " ++ dest
    ++ ascii "\r\nST: urn:schemas-upnp-org:device:MediaServer:1\r\nMAN: \"ssdp:discover\"\r\nMX: 2\r\n\r\n"

/-- Continuation byte test of UTF-8: `0x80 ≤ b ≤ 0xBF`. -/
def isUtf8Cont (b : Nat) : Bool :=
  0x80 ≤ b && b ≤ 0xBF

/-- Model of the validity check of `std::str::from_utf8` (UTF-8 per RFC
3629: no overlong forms, no surrogates, no code points above 0x10FFFF). -/
def validUtf8 : List Nat → Bool
  | [] => true
  | b :: rest =>
    if b ≤ 0x7F then validUtf8 rest
    else if 0xC2 ≤ b && b ≤ 0xDF then
      match rest with
      | b2 :: rest2 => isUtf8Cont b2 && validUtf8 rest2
      | [] => false
    else if b = 0xE0 then
      match rest with
      | b2 :: b3 :: rest2 => (0xA0 ≤ b2 && b2 ≤ 0xBF) && isUtf8Cont b3 && validUtf8 rest2
      | _ => false
    else if (0xE1 ≤ b && b ≤ 0xEC) || b = 0xEE || b = 0xEF then
      match rest with
      | b2 :: b3 :: rest2 => isUtf8Cont b2 && isUtf8Cont b3 && validUtf8 rest2
      | _ => false
    else if b = 0xED then
      match rest with
      | b2 :: b3 :: rest2 => (0x80 ≤ b2 && b2 ≤ 0x9F) && isUtf8Cont b3 && validUtf8 rest2
      | _ => false
    else if b = 0xF0 then
      match rest with
      | b2 :: b3 :: b4 :: rest2 =>
        (0x90 ≤ b2 && b2 ≤ 0xBF) && isUtf8Cont b3 && isUtf8Cont b4 && validUtf8 rest2
      | _ => false
    else if 0xF1 ≤ b && b ≤ 0xF3 then
      match rest with
      | b2 :: b3 :: b4 :: rest2 =>
        isUtf8Cont b2 && isUtf8Cont b3 && isUtf8Cont b4 && validUtf8 rest2
      | _ => false
    else if b = 0xF4 then
      match rest with
      | b2 :: b3 :: b4 :: rest2 =>
        (0x80 ≤ b2 && b2 ≤ 0x8F) && isUtf8Cont b3 && isUtf8Cont b4 && validUtf8 rest2
      | _ => false
    else false

/-- Mirror of `SsdpRunner::process_incoming_message` (`ssdp.rs` lines
426-460) as a function from the datagram to the optionally emitted unicast
response: parse with a 16-header array, ignore non-M-SEARCH messages and
parse errors, ignore probes that fail `matches_media_server`, validate the
ST bytes as UTF-8, and emit the discover response.  `location`, `usn` and
`server` are the runner-level inputs of the response text. -/
def process_incoming_message (location usn server : List Nat) (msg : List Nat) :
    Option (List Nat) :=
  match try_parse_ssdp 16 msg with
  | .ok (.MSearch r) =>
    if matches_media_server r then
      if validUtf8 r.st then some (generate_ssdp_discover_response location usn server r.st)
      else none
    else none
  | _ => none

/-- Mirror of the receive buffer of `SsdpRunner::task_respond_on_msearches`
(`ssdp.rs` line 463, `vec![0u8; 16184]`). -/
def task_respond_recv_buffer : List Nat :=
  List.replicate 16184 0

/-- Join lines, terminating every line (including the last) with CRLF: the
shape of the formatted SSDP messages. -/
def joinCRLF : List (List Nat) → List Nat
  | [] => []
  | l :: ls => l ++ 13 :: 10 :: joinCRLF ls

/-- Uppercase an ASCII byte (case-insensitive comparison helper used to
state the case-insensitivity the spec claims). -/
def upperByte (b : Nat) : Nat :=
  if 97 ≤ b ∧ b ≤ 122 then b - 32 else b

/-- Check whether the header section of a buffer contains a header whose
name equals `name` under ASCII case-insensitive comparison. -/
def hasHeaderNameCI (buf : List Nat) (name : List Nat) : Bool :=
  ((splitCRLF buf).tail.takeWhile fun l => !l.isEmpty).any fun line =>
    match splitAtByte 58 line with
    | some (n, _) => n.map upperByte = name
    | none => false

/-- Concrete M-SEARCH buffer of the C3 witness, with the three recognized
casings `host`, `Man`, `ST`. -/
def c3WitnessBuf : List Nat :=
  ascii "M-SEARCH * HTTP/1.1\r\nhost: 239.255.255.250:1900\r\nMan: \"ssdp:discover\"\r\nST: upnp:rootdevice\r\n\r\n"

/-- Headers of the C3 witness buffer as the httparse model parses them. -/
def c3WitnessHeaders : List HttparseHeader :=
  [⟨ascii "host", ascii "239.255.255.250:1900"⟩,
   ⟨ascii "Man", ascii "\"ssdp:discover\""⟩,
   ⟨ascii "ST", ascii "upnp:rootdevice"⟩]

/-- Concrete C9 witness buffer: an M-SEARCH with valid HOST, MAN and ST
plus fourteen extra headers, 17 header lines in total. -/
def c9WitnessBuf : List Nat :=
  ascii "M-SEARCH * HTTP/1.1\r\nHOST: 239.255.255.250:1900\r\nMAN: \"ssdp:discover\"\r\nST: upnp:rootdevice\r\nX01: 1\r\nX02: 2\r\nX03: 3\r\nX04: 4\r\nX05: 5\r\nX06: 6\r\nX07: 7\r\nX08: 8\r\nX09: 9\r\nX10: 10\r\nX11: 11\r\nX12: 12\r\nX13: 13\r\nX14: 14\r\n\r\n"

theorem splitCRLF_nil : splitCRLF [] = [[]] := rfl

theorem splitCRLF_crlf_cons (rest : List Nat) :
    splitCRLF (13 :: 10 :: rest) = [] :: splitCRLF rest := rfl

theorem consHead_ne_nil (b : Nat) (ls : List (List Nat)) : consHead b ls ≠ [] := by
  cases ls <;> simp [consHead]

theorem splitCRLF_cons_of_ne (b : Nat) (rest : List Nat) (hb : b ≠ 13) :
    splitCRLF (b :: rest) = consHead b (splitCRLF rest) := by
  rw [splitCRLF.eq_def]
  split
  · rename_i heq
    cases heq
  · rename_i x r heq
    injection heq with h1 _
    exact absurd h1 hb
  · rename_i x1 b2 r2 hg heq
    injection heq with h1 h2
    rw [h1, h2]

theorem splitCRLF_ne_nil (l : List Nat) : splitCRLF l ≠ [] := by
  induction l using splitCRLF.induct with
  | case1 => simp [splitCRLF]
  | case2 rest ih => simp [splitCRLF]
  | case3 b rest hne ih =>
    rw [splitCRLF.eq_def]
    split
    · rename_i heq
      cases heq
    · simp
    · rename_i x1 b2 r2 hg heq
      exact consHead_ne_nil _ _

/-- Splitting a buffer that starts with a CR-free line followed by CRLF
peels off that line. -/
theorem splitCRLF_line (line rest : List Nat) (h : 13 ∉ line) :
    splitCRLF (line ++ 13 :: 10 :: rest) = line :: splitCRLF rest := by
  induction line with
  | nil => simp [splitCRLF]
  | cons b l ih =>
    have hb : b ≠ 13 := fun hc => h (hc ▸ List.mem_cons_self b l)
    have hl : 13 ∉ l := fun hc => h (List.mem_cons_of_mem b hc)
    rw [List.cons_append, splitCRLF_cons_of_ne b _ hb, ih hl, consHead]

theorem matches_media_server_iff (r : SsdpMSearchRequest) :
    matches_media_server r = true ↔
      (r.man = ascii "\"ssdp:discover\""
        ∧ (r.st = UPNP_KIND_ROOT_DEVICE ∨ r.st = UPNP_KIND_MEDIASERVER)) := by
  unfold matches_media_server
  split_ifs with h1 h2 <;> simp_all

theorem validUtf8_root_device : validUtf8 UPNP_KIND_ROOT_DEVICE = true := by decide

theorem validUtf8_media_server : validUtf8 UPNP_KIND_MEDIASERVER = true := by decide

/-- C6: for every IPv6 address `a`, the classifier returns link-local iff
the first 16-bit segment equals 0xfe80 and segments 2-4 are zero. -/
theorem ipv6_link_local_iff (a : Ipv6Addr) :
    ipv6_is_link_local a = true ↔ (a.s0 = 0xfe80 ∧ a.s1 = 0 ∧ a.s2 = 0 ∧ a.s3 = 0) := by
  simp [ipv6_is_link_local]

/-- C8 counterexample: the receive buffer of the responder task does not
hold 16 KiB (16384 bytes). -/
theorem recv_buffer_not_16KiB : task_respond_recv_buffer.length ≠ 16384 := by
  unfold task_respond_recv_buffer
  rw [List.length_replicate]
  decide

/-- C8 amended: the responder task reads every inbound datagram into a
fixed receive buffer of 16184 bytes. -/
theorem recv_buffer_is_16184 : task_respond_recv_buffer.length = 16184 := by
  unfold task_respond_recv_buffer
  rw [List.length_replicate]

/-- C5: an enumerated interface address yields a multicast target iff it is
an IPv4 private non-loopback address or an IPv6 non-loopback address; the
IPv4 destination is 239.255.255.250:1900 and the IPv6 destination is
ff02::c:1900 for a link-local source, else ff05::c:1900, the scope id set
to the interface index. -/
theorem multicast_target_eligibility (ifidx : Nat) (a4 : Ipv4Addr) (a6 : Ipv6Addr) :
    ((targetFor ifidx (.V4 a4)).isSome = true
        ↔ (a4.is_private = true ∧ a4.is_loopback = false))
  ∧ ((targetFor ifidx (.V6 a6)).isSome = true ↔ a6.is_loopback = false)
  ∧ (∀ o : MulticastOpts, targetFor ifidx (.V4 a4) = some o →
      o.addr = .V4 SSDM_MCAST_IPV4 SSDP_PORT)
  ∧ (∀ o : MulticastOpts, targetFor ifidx (.V6 a6) = some o →
      o.addr = .V6 (if ipv6_is_link_local a6 then SSDP_MCAST_IPV6_LINK_LOCAL
                    else SSDP_MCAST_IPV6_SITE_LOCAL) SSDP_PORT ifidx) := by
  refine ⟨?_, ?_, ?_, ?_⟩
  · simp only [targetFor]
    cases hl : a4.is_loopback <;> cases hp : a4.is_private <;> simp [hl, hp]
  · simp only [targetFor]
    cases hl : a6.is_loopback <;> simp [hl]
  · intro o ho
    simp only [targetFor] at ho
    by_cases hc : (¬ a4.is_loopback = true ∧ a4.is_private = true)
    · rw [if_pos hc] at ho
      injection ho with h
      subst h
      rfl
    · rw [if_neg hc] at ho
      exact Option.noConfusion ho
  · intro o ho
    simp only [targetFor] at ho
    by_cases hc : (¬ a6.is_loopback = true)
    · rw [if_pos hc] at ho
      injection ho with h
      subst h
      rfl
    · rw [if_neg hc] at ho
      exact Option.noConfusion ho

/-- C5 witness at concrete inputs: a private IPv4 address and a link-local
IPv6 address on interface 7. -/
theorem multicast_target_eligibility_witness :
    ((targetFor 7 (.V4 ⟨192, 168, 1, 10⟩)).isSome = true)
  ∧ ((targetFor 7 (.V6 ⟨0xfe80, 0, 0, 0, 0, 0, 0, 5⟩)).isSome = true)
  ∧ (MulticastOpts.addr ⟨.V4 ⟨192, 168, 1, 10⟩, 7, .V4 SSDM_MCAST_IPV4 SSDP_PORT⟩
      = .V4 SSDM_MCAST_IPV4 SSDP_PORT)
  ∧ (MulticastOpts.addr ⟨.V6 ⟨0xfe80, 0, 0, 0, 0, 0, 0, 5⟩, 7,
        .V6 SSDP_MCAST_IPV6_LINK_LOCAL SSDP_PORT 7⟩
      = .V6 (if ipv6_is_link_local ⟨0xfe80, 0, 0, 0, 0, 0, 0, 5⟩
             then SSDP_MCAST_IPV6_LINK_LOCAL else SSDP_MCAST_IPV6_SITE_LOCAL) SSDP_PORT 7) := by
  have h := multicast_target_eligibility 7 ⟨192, 168, 1, 10⟩ ⟨0xfe80, 0, 0, 0, 0, 0, 0, 5⟩
  exact ⟨h.1.mpr (by decide), h.2.1.mpr (by decide),
    h.2.2.1 _ (by decide), h.2.2.2 _ (by decide)⟩

theorem passSends_nodup_aux (hasV4 hasV6 : Bool) (gp : MulticastOpts → List Nat) :
    ∀ (opts : List MulticastOpts) (seen : List SendKey),
      (passSends hasV4 hasV6 gp opts seen).Nodup
        ∧ ∀ k ∈ passSends hasV4 hasV6 gp opts seen, k ∉ seen := by
  intro opts
  induction opts with
  | nil =>
    intro seen
    simp [passSends]
  | cons o rest ih =>
    intro seen
    rw [passSends]
    by_cases hmem : (gp o, o.local_interface_id, o.addr) ∈ seen
    · simp only [hmem, if_true]
      exact ⟨(ih seen).1, fun k hk => (ih seen).2 k hk⟩
    · simp only [hmem, if_false]
      by_cases hsock : (match o.local_interface_ip with
        | .V4 _ => hasV4
        | .V6 _ => hasV6) = true
      · simp only [hsock, if_true]
        have hrec := ih ((gp o, o.local_interface_id, o.addr) :: seen)
        constructor
        · refine List.nodup_cons.mpr ⟨?_, hrec.1⟩
          intro hk
          exact hrec.2 _ hk (List.mem_cons_self _ _)
        · intro k hk
          rcases List.mem_cons.mp hk with rfl | hk'
          · exact hmem
          · exact fun hks => hrec.2 k hk' (List.mem_cons_of_mem _ hks)
      · simp only [hsock, if_false]
        have hrec := ih ((gp o, o.local_interface_id, o.addr) :: seen)
        exact ⟨hrec.1, fun k hk hks => hrec.2 k hk (List.mem_cons_of_mem _ hks)⟩

/-- C4: within one broadcast pass the keys (payload bytes, interface index,
destination) of the datagrams actually sent are pairwise distinct. -/
theorem broadcast_pass_sends_nodup (hasV4 hasV6 : Bool)
    (gp : MulticastOpts → List Nat) (nis : List NetworkInterface) :
    (try_send_mcast_everywhere hasV4 hasV6 gp nis).Nodup :=
  (passSends_nodup_aux hasV4 hasV6 gp (mkTargets nis) []).1

/-- C10: a probe that passes `matches_media_server` has an ST equal to one
of the two ASCII kind constants, which is valid UTF-8, so the UTF-8 guard
before response generation cannot fail. -/
theorem matched_st_is_valid_utf8 (r : SsdpMSearchRequest)
    (h : matches_media_server r = true) :
    (r.st = UPNP_KIND_ROOT_DEVICE ∨ r.st = UPNP_KIND_MEDIASERVER) ∧ validUtf8 r.st = true := by
  have hst := ((matches_media_server_iff r).mp h).2
  refine ⟨hst, ?_⟩
  rcases hst with h' | h' <;> rw [h']
  · exact validUtf8_root_device
  · exact validUtf8_media_server

/-- C10 witness: a concrete matching probe with ST `upnp:rootdevice`. -/
theorem matched_st_is_valid_utf8_witness :
    ((SsdpMSearchRequest.mk (ascii "239.255.255.250:1900") (ascii "\"ssdp:discover\"")
        (ascii "upnp:rootdevice")).st = UPNP_KIND_ROOT_DEVICE
      ∨ (SsdpMSearchRequest.mk (ascii "239.255.255.250:1900") (ascii "\"ssdp:discover\"")
        (ascii "upnp:rootdevice")).st = UPNP_KIND_MEDIASERVER)
    ∧ validUtf8 (SsdpMSearchRequest.mk (ascii "239.255.255.250:1900")
        (ascii "\"ssdp:discover\"") (ascii "upnp:rootdevice")).st = true :=
  matched_st_is_valid_utf8 _ (by decide)

/-- C1: for every inbound datagram that parses as an M-SEARCH request, a
unicast response is emitted iff the MAN value is exactly
`"ssdp:discover"` (quotes included) and the ST value is one of
`upnp:rootdevice` and `urn:schemas-upnp-org:device:MediaServer:1`; any
other MAN or ST value yields no response. -/
theorem response_emitted_iff_match (location usn server msg : List Nat)
    (r : SsdpMSearchRequest) (hparse : try_parse_ssdp 16 msg = .ok (.MSearch r)) :
    (process_incoming_message location usn server msg).isSome = true
      ↔ (r.man = ascii "\"ssdp:discover\""
          ∧ (r.st = UPNP_KIND_ROOT_DEVICE ∨ r.st = UPNP_KIND_MEDIASERVER)) := by
  unfold process_incoming_message
  rw [hparse]
  dsimp only
  constructor
  · intro hsome
    by_cases hm : matches_media_server r = true
    · exact (matches_media_server_iff r).mp hm
    · rw [if_neg hm] at hsome
      simp at hsome
  · intro hrhs
    have hm := (matches_media_server_iff r).mpr hrhs
    have hv : validUtf8 r.st = true := by
      rcases hrhs.2 with h' | h' <;> rw [h']
      · exact validUtf8_root_device
      · exact validUtf8_media_server
    rw [if_pos hm, if_pos hv]
    rfl

/-- C1 witness: the scenario S1 datagram, a matching MediaServer probe. -/
theorem response_emitted_iff_match_witness :
    (process_incoming_message (ascii "http://192.168.1.10:8200/dev.xml") (ascii "uuid:abc")
        (ascii "Linux/6 UPnP/1.1 X/1")
        (ascii "M-SEARCH * HTTP/1.1\r\nHOST: 239.255.255.250:1900\r\nMAN: \"ssdp:discover\"\r\nMX: 2\r\nST: urn:schemas-upnp-org:device:MediaServer:1\r\n\r\n")).isSome = true
      ↔ ((ascii "\"ssdp:discover\"" : List Nat) = ascii "\"ssdp:discover\""
          ∧ ((ascii "urn:schemas-upnp-org:device:MediaServer:1" : List Nat) = UPNP_KIND_ROOT_DEVICE
              ∨ (ascii "urn:schemas-upnp-org:device:MediaServer:1" : List Nat) = UPNP_KIND_MEDIASERVER)) :=
  response_emitted_iff_match _ _ _ _
    ⟨ascii "239.255.255.250:1900", ascii "\"ssdp:discover\"",
      ascii "urn:schemas-upnp-org:device:MediaServer:1"⟩ (by decide)

theorem splitCRLF_joinCRLF (ls : List (List Nat)) (h : ∀ l ∈ ls, 13 ∉ l) :
    splitCRLF (joinCRLF ls) = ls ++ [[]] := by
  induction ls with
  | nil => simp [joinCRLF, splitCRLF]
  | cons l ls ih =>
    rw [joinCRLF, splitCRLF_line l _ (h l (List.mem_cons_self _ _)),
      ih (fun x hx => h x (List.mem_cons_of_mem _ hx))]
    rfl

theorem generate_response_eq_join (location usn server st : List Nat) :
    generate_ssdp_discover_response location usn server st
      = joinCRLF [ascii "HTTP/1.1 200 OK", ascii "Cache-Control: max-age=75", ascii "Ext: ",
          ascii "Location: " ++ location, ascii "Server: " ++ server, ascii "St: " ++ st,
          ascii "Usn: " ++ usn ++ ascii "::" ++ st, ascii "Content-Length: 0", []] := by
  have hA : ascii "HTTP/1.1 200 OK\r\nCache-Control: max-age=75\r\nExt: \r\nLocation: "
      = ascii "HTTP/1.1 200 OK" ++ 13 :: 10 :: (ascii "Cache-Control: max-age=75"
          ++ 13 :: 10 :: (ascii "Ext: " ++ 13 :: 10 :: ascii "Location: ")) := by decide
  have hB : ascii "\r\nServer: " = 13 :: 10 :: ascii "Server: " := by decide
  have hC : ascii "\r\nSt: " = 13 :: 10 :: ascii "St: " := by decide
  have hD : ascii "\r\nUsn: " = 13 :: 10 :: ascii "Usn: " := by decide
  have hE : ascii "\r\nContent-Length: 0\r\n\r\n"
      = 13 :: 10 :: (ascii "Content-Length: 0" ++ 13 :: 10 :: (13 :: 10 :: ([] : List Nat))) := by
    decide
  rw [generate_ssdp_discover_response, hA, hB, hC, hD, hE]
  simp [joinCRLF, List.append_assoc]

/-- C2: the response generated for ST value `st` consists of exactly the
status line, `Cache-Control`, `Ext`, `Location`, `Server`, `St: st`
(byte-for-byte), `Usn: usn::st` and `Content-Length: 0` lines, each
CRLF-terminated, then a final CRLF and no body. -/
theorem response_lines (location usn server st : List Nat)
    (hloc : 13 ∉ location) (husn : 13 ∉ usn) (hsrv : 13 ∉ server) (hst : 13 ∉ st) :
    splitCRLF (generate_ssdp_discover_response location usn server st)
      = [ascii "HTTP/1.1 200 OK", ascii "Cache-Control: max-age=75", ascii "Ext: ",
         ascii "Location: " ++ location, ascii "Server: " ++ server, ascii "St: " ++ st,
         ascii "Usn: " ++ usn ++ ascii "::" ++ st, ascii "Content-Length: 0", [], []] := by
  rw [generate_response_eq_join, splitCRLF_joinCRLF]
  · rfl
  · intro l hl
    simp only [List.mem_cons] at hl
    rcases hl with rfl | rfl | rfl | rfl | rfl | rfl | rfl | rfl | rfl | hl
    · decide
    · decide
    · decide
    · intro hmem
      rcases List.mem_append.mp hmem with h | h
      · exact absurd h (by decide)
      · exact hloc h
    · intro hmem
      rcases List.mem_append.mp hmem with h | h
      · exact absurd h (by decide)
      · exact hsrv h
    · intro hmem
      rcases List.mem_append.mp hmem with h | h
      · exact absurd h (by decide)
      · exact hst h
    · intro hmem
      rcases List.mem_append.mp hmem with h | h
      · rcases List.mem_append.mp h with h' | h'
        · rcases List.mem_append.mp h' with h'' | h''
          · exact absurd h'' (by decide)
          · exact husn h''
        · exact absurd h' (by decide)
      · exact hst h
    · decide
    · decide
    · simp at hl

/-- C2 witness: the scenario S1 response rendered at concrete inputs. -/
theorem response_lines_witness :
    splitCRLF (generate_ssdp_discover_response (ascii "http://192.168.1.10:8200/dev.xml")
        (ascii "uuid:abc") (ascii "Linux/6 UPnP/1.1 X/1")
        (ascii "urn:schemas-upnp-org:device:MediaServer:1"))
      = [ascii "HTTP/1.1 200 OK", ascii "Cache-Control: max-age=75", ascii "Ext: ",
         ascii "Location: " ++ ascii "http://192.168.1.10:8200/dev.xml",
         ascii "Server: " ++ ascii "Linux/6 UPnP/1.1 X/1",
         ascii "St: " ++ ascii "urn:schemas-upnp-org:device:MediaServer:1",
         ascii "Usn: " ++ ascii "uuid:abc" ++ ascii "::"
           ++ ascii "urn:schemas-upnp-org:device:MediaServer:1",
         ascii "Content-Length: 0", [], []] :=
  response_lines _ _ _ _ (by decide) (by decide) (by decide) (by decide)

theorem isHostName_cases (n : List Nat) (h : isHostName n = true) :
    n = ascii "HOST" ∨ n = ascii "Host" ∨ n = ascii "host" := by
  have := h
  simp only [isHostName, Bool.or_eq_true, decide_eq_true_eq] at this
  tauto

theorem isHostName_not_man (n : List Nat) (h : isHostName n = true) : isManName n = false := by
  rcases isHostName_cases n h with rfl | rfl | rfl <;> decide

theorem isHostName_not_st (n : List Nat) (h : isHostName n = true) : isStName n = false := by
  rcases isHostName_cases n h with rfl | rfl | rfl <;> decide

theorem isManName_cases (n : List Nat) (h : isManName n = true) :
    n = ascii "MAN" ∨ n = ascii "Man" ∨ n = ascii "man" := by
  have := h
  simp only [isManName, Bool.or_eq_true, decide_eq_true_eq] at this
  tauto

theorem isManName_not_st (n : List Nat) (h : isManName n = true) : isStName n = false := by
  rcases isManName_cases n h with rfl | rfl | rfl <;> decide

theorem scanStep_host (acc : ScanAcc) (h : HttparseHeader) :
    (scanStep acc h).host = if isHostName h.name = true then some h.value else acc.host := by
  unfold scanStep
  split_ifs <;> rfl

theorem scanStep_man (acc : ScanAcc) (h : HttparseHeader) :
    (scanStep acc h).man = if isManName h.name = true then some h.value else acc.man := by
  unfold scanStep
  by_cases h1 : isHostName h.name = true
  · have h2 : isManName h.name = false := isHostName_not_man _ h1
    rw [if_pos h1, h2]
    simp
  · rw [if_neg h1]
    by_cases h2 : isManName h.name = true
    · rw [if_pos h2, if_pos h2]
    · rw [if_neg h2, if_neg h2]
      split_ifs <;> rfl

theorem scanStep_st (acc : ScanAcc) (h : HttparseHeader) :
    (scanStep acc h).st = if isStName h.name = true then some h.value else acc.st := by
  unfold scanStep
  by_cases h1 : isHostName h.name = true
  · have h3 : isStName h.name = false := isHostName_not_st _ h1
    rw [if_pos h1, h3]
    simp
  · rw [if_neg h1]
    by_cases h2 : isManName h.name = true
    · have h3 : isStName h.name = false := isManName_not_st _ h2
      rw [if_pos h2, h3]
      simp
    · rw [if_neg h2]
      by_cases h3 : isStName h.name = true
      · rw [if_pos h3, if_pos h3]
      · rw [if_neg h3, if_neg h3]

theorem foldl_scan_host (hs : List HttparseHeader) :
    ∀ acc : ScanAcc, ((hs.foldl scanStep acc).host).isSome = true
      ↔ (acc.host.isSome = true ∨ ∃ h ∈ hs, isHostName h.name = true) := by
  induction hs with
  | nil =>
    intro acc
    simp
  | cons h t ih =>
    intro acc
    rw [List.foldl_cons, ih]
    by_cases hh : isHostName h.name = true
    · simp [scanStep_host, hh]
    · simp [scanStep_host, hh]

theorem foldl_scan_man (hs : List HttparseHeader) :
    ∀ acc : ScanAcc, ((hs.foldl scanStep acc).man).isSome = true
      ↔ (acc.man.isSome = true ∨ ∃ h ∈ hs, isManName h.name = true) := by
  induction hs with
  | nil =>
    intro acc
    simp
  | cons h t ih =>
    intro acc
    rw [List.foldl_cons, ih]
    by_cases hh : isManName h.name = true
    · simp [scanStep_man, hh]
    · simp [scanStep_man, hh]

theorem foldl_scan_st (hs : List HttparseHeader) :
    ∀ acc : ScanAcc, ((hs.foldl scanStep acc).st).isSome = true
      ↔ (acc.st.isSome = true ∨ ∃ h ∈ hs, isStName h.name = true) := by
  induction hs with
  | nil =>
    intro acc
    simp
  | cons h t ih =>
    intro acc
    rw [List.foldl_cons, ih]
    by_cases hh : isStName h.name = true
    · simp [scanStep_st, hh]
    · simp [scanStep_st, hh]

/-- C3 amended: for a buffer with method M-SEARCH, the headers are scanned
for the exact names HOST/Host/host, MAN/Man/man and ST/St/st only (a name
outside these nine spellings is never recognized); parsing returns the
MSearch variant carrying the scanned values when all three are found, and
fails with the missing-headers error when any of the three is absent in
every recognized spelling. -/
theorem msearch_header_scan (maxH : Nat) (buf reqline : List Nat)
    (rest : List (List Nat)) (hs : List HttparseHeader)
    (hpre : (ascii "HTTP/").isPrefixOf buf = false)
    (hsplit : splitCRLF buf = reqline :: rest)
    (hreq : parseRequestLine reqline = some (ascii "M-SEARCH"))
    (hhdrs : parseHeaderLines maxH rest = .ok hs) :
    ((scanMSearchHeaders hs).host.isSome = true ↔ ∃ h ∈ hs, isHostName h.name = true)
  ∧ ((scanMSearchHeaders hs).man.isSome = true ↔ ∃ h ∈ hs, isManName h.name = true)
  ∧ ((scanMSearchHeaders hs).st.isSome = true ↔ ∃ h ∈ hs, isStName h.name = true)
  ∧ (∀ host man st, scanMSearchHeaders hs = ⟨some host, some man, some st⟩ →
      try_parse_ssdp maxH buf = .ok (.MSearch ⟨host, man, st⟩))
  ∧ (((scanMSearchHeaders hs).host = none ∨ (scanMSearchHeaders hs).man = none
        ∨ (scanMSearchHeaders hs).st = none) →
      try_parse_ssdp maxH buf = .error .missingHeaders) := by
  have hred : try_parse_ssdp maxH buf
      = (match scanMSearchHeaders hs with
         | ⟨some host, some man, some st⟩ => .ok (.MSearch ⟨host, man, st⟩)
         | _ => .error .missingHeaders) := by
    unfold try_parse_ssdp
    rw [if_neg (show ¬((ascii "HTTP/").isPrefixOf buf = true) by simp [hpre])]
    rw [hsplit]
    dsimp only
    rw [hreq]
    dsimp only
    rw [hhdrs]
    dsimp only
    rw [if_pos rfl]
  refine ⟨?_, ?_, ?_, ?_, ?_⟩
  · have := foldl_scan_host hs ⟨none, none, none⟩
    simpa [scanMSearchHeaders] using this
  · have := foldl_scan_man hs ⟨none, none, none⟩
    simpa [scanMSearchHeaders] using this
  · have := foldl_scan_st hs ⟨none, none, none⟩
    simpa [scanMSearchHeaders] using this
  · intro host man st hscan
    rw [hred, hscan]
  · intro hnone
    rw [hred]
    rcases hacc : scanMSearchHeaders hs with ⟨oh, om, os⟩
    rw [hacc] at hnone
    cases oh with
    | none => rfl
    | some vh =>
      cases om with
      | none => rfl
      | some vm =>
        cases os with
        | none => rfl
        | some vs => simp at hnone

/-- C3 counterexample: an M-SEARCH buffer carrying HOST, MAN and ST headers
in the casings `HoSt`, `MaN`, `sT` — all three present under
case-insensitive comparison, with matching values — yet parsing fails with
the missing-headers error instead of returning the MSearch variant,
because only the spellings NAME/Name/name are recognized. -/
theorem msearch_not_case_insensitive :
    (hasHeaderNameCI (ascii "M-SEARCH * HTTP/1.1\r\nHoSt: 239.255.255.250:1900\r\nMaN: \"ssdp:discover\"\r\nsT: upnp:rootdevice\r\n\r\n")
        (ascii "HOST") = true)
  ∧ (hasHeaderNameCI (ascii "M-SEARCH * HTTP/1.1\r\nHoSt: 239.255.255.250:1900\r\nMaN: \"ssdp:discover\"\r\nsT: upnp:rootdevice\r\n\r\n")
        (ascii "MAN") = true)
  ∧ (hasHeaderNameCI (ascii "M-SEARCH * HTTP/1.1\r\nHoSt: 239.255.255.250:1900\r\nMaN: \"ssdp:discover\"\r\nsT: upnp:rootdevice\r\n\r\n")
        (ascii "ST") = true)
  ∧ ((splitCRLF (ascii "M-SEARCH * HTTP/1.1\r\nHoSt: 239.255.255.250:1900\r\nMaN: \"ssdp:discover\"\r\nsT: upnp:rootdevice\r\n\r\n")).head?.map
        parseRequestLine = some (some (ascii "M-SEARCH")))
  ∧ try_parse_ssdp 16 (ascii "M-SEARCH * HTTP/1.1\r\nHoSt: 239.255.255.250:1900\r\nMaN: \"ssdp:discover\"\r\nsT: upnp:rootdevice\r\n\r\n")
      = .error .missingHeaders := by
  decide

/-- C3 witness: the amended scan theorem applied to a concrete buffer whose
three headers use the recognized spellings host/Man/ST. -/
theorem msearch_header_scan_witness :
    ((scanMSearchHeaders c3WitnessHeaders).host.isSome = true
        ↔ ∃ h ∈ c3WitnessHeaders, isHostName h.name = true)
  ∧ ((scanMSearchHeaders c3WitnessHeaders).man.isSome = true
        ↔ ∃ h ∈ c3WitnessHeaders, isManName h.name = true)
  ∧ ((scanMSearchHeaders c3WitnessHeaders).st.isSome = true
        ↔ ∃ h ∈ c3WitnessHeaders, isStName h.name = true)
  ∧ (∀ host man st, scanMSearchHeaders c3WitnessHeaders = ⟨some host, some man, some st⟩ →
      try_parse_ssdp 16 c3WitnessBuf = .ok (.MSearch ⟨host, man, st⟩))
  ∧ (((scanMSearchHeaders c3WitnessHeaders).host = none
        ∨ (scanMSearchHeaders c3WitnessHeaders).man = none
        ∨ (scanMSearchHeaders c3WitnessHeaders).st = none) →
      try_parse_ssdp 16 c3WitnessBuf = .error .missingHeaders) :=
  msearch_header_scan 16 c3WitnessBuf (ascii "M-SEARCH * HTTP/1.1")
    [ascii "host: 239.255.255.250:1900", ascii "Man: \"ssdp:discover\"",
      ascii "ST: upnp:rootdevice", [], []]
    c3WitnessHeaders (by decide) (by decide) (by decide) (by decide)

theorem parseHeaderLines_too_many (lines : List (List Nat)) :
    ∀ maxH : Nat, maxH < (lines.takeWhile fun l => !l.isEmpty).length →
      ∃ e, parseHeaderLines maxH lines = .error e := by
  induction lines with
  | nil =>
    intro maxH h
    refine ⟨.malformed, ?_⟩
    cases maxH <;> rfl
  | cons l rest ih =>
    intro maxH hcount
    cases l with
    | nil =>
      rw [List.takeWhile_cons] at hcount
      simp at hcount
    | cons b bs =>
      cases maxH with
      | zero => exact ⟨.tooManyHeaders, rfl⟩
      | succ m =>
        have hstep : parseHeaderLines (m + 1) ((b :: bs) :: rest)
            = (match parseHeaderLine (b :: bs) with
               | none => .error .malformed
               | some h =>
                 match parseHeaderLines m rest with
                 | .error e => .error e
                 | .ok hs => .ok (h :: hs)) := rfl
        have hcount' : m < (rest.takeWhile fun l => !l.isEmpty).length := by
          rw [List.takeWhile_cons] at hcount
          simp at hcount
          omega
        cases hp : parseHeaderLine (b :: bs) with
        | none =>
          refine ⟨.malformed, ?_⟩
          rw [hstep, hp]
        | some hh =>
          obtain ⟨e, he⟩ := ih m hcount'
          refine ⟨e, ?_⟩
          rw [hstep, hp, he]

/-- C9: a request datagram whose header section holds more than 16 header
lines fails to parse (the SSDP code passes a 16-slot httparse header
array) and produces no response, even when HOST, MAN and ST are present
with matching values. -/
theorem too_many_headers_no_response (location usn server msg reqline : List Nat)
    (rest : List (List Nat))
    (hpre : (ascii "HTTP/").isPrefixOf msg = false)
    (hsplit : splitCRLF msg = reqline :: rest)
    (hcount : 16 < (rest.takeWhile fun l => !l.isEmpty).length) :
    (∃ e, try_parse_ssdp 16 msg = .error e)
  ∧ process_incoming_message location usn server msg = none := by
  obtain ⟨e, he⟩ := parseHeaderLines_too_many rest 16 hcount
  have herr : ∃ e, try_parse_ssdp 16 msg = .error e := by
    unfold try_parse_ssdp
    rw [if_neg (show ¬((ascii "HTTP/").isPrefixOf msg = true) by simp [hpre])]
    rw [hsplit]
    dsimp only
    rcases hr : parseRequestLine reqline with _ | m
    · exact ⟨.malformed, rfl⟩
    · rw [he]
      exact ⟨e, rfl⟩
  refine ⟨herr, ?_⟩
  obtain ⟨e', he'⟩ := herr
  unfold process_incoming_message
  rw [he']

/-- C9 witness: the 17-header buffer is dropped without a response. -/
theorem too_many_headers_no_response_witness :
    (∃ e, try_parse_ssdp 16 c9WitnessBuf = .error e)
  ∧ process_incoming_message (ascii "http://192.168.1.10:8200/dev.xml") (ascii "uuid:abc")
      (ascii "Linux/6 UPnP/1.1 X/1") c9WitnessBuf = none :=
  too_many_headers_no_response _ _ _ c9WitnessBuf (ascii "M-SEARCH * HTTP/1.1")
    [ascii "HOST: 239.255.255.250:1900", ascii "MAN: \"ssdp:discover\"",
     ascii "ST: upnp:rootdevice", ascii "X01: 1", ascii "X02: 2", ascii "X03: 3",
     ascii "X04: 4", ascii "X05: 5", ascii "X06: 6", ascii "X07: 7", ascii "X08: 8",
     ascii "X09: 9", ascii "X10: 10", ascii "X11: 11", ascii "X12: 12", ascii "X13: 13",
     ascii "X14: 14", [], []]
    (by decide) (by decide) (by decide)

theorem splitAtByte_first (sep : Nat) (pre post : List Nat) (h : sep ∉ pre) :
    splitAtByte sep (pre ++ sep :: post) = some (pre, post) := by
  induction pre with
  | nil => simp [splitAtByte]
  | cons b l ih =>
    have hb : b ≠ sep := fun hc => h (hc ▸ List.mem_cons_self b l)
    rw [List.cons_append, splitAtByte, if_neg hb,
      ih (fun hc => h (List.mem_cons_of_mem b hc))]

theorem stripLeadingWS_eq_self (l : List Nat) (h : ∀ b ∈ l, b ≠ 32 ∧ b ≠ 9) :
    stripLeadingWS l = l := by
  cases l with
  | nil => rfl
  | cons b rest =>
    have hb := h b (List.mem_cons_self _ _)
    rw [stripLeadingWS.eq_def]
    split
    · rename_i r heq
      injection heq with h1 _
      exact absurd h1 hb.1
    · rename_i r heq
      injection heq with h1 _
      exact absurd h1 hb.2
    · rfl

theorem stripTrailingWS_eq_self (l : List Nat) (h : ∀ b ∈ l, b ≠ 32 ∧ b ≠ 9) :
    stripTrailingWS l = l := by
  unfold stripTrailingWS
  rw [stripLeadingWS_eq_self _ (fun b hb => h b (List.mem_reverse.mp hb)),
    List.reverse_reverse]

theorem parseHeaderLine_host (dest : List Nat) (h : ∀ b ∈ dest, b ≠ 32 ∧ b ≠ 9) :
    parseHeaderLine (ascii "HOST: " ++ dest) = some ⟨ascii "HOST", dest⟩ := by
  have hsp : ascii "HOST: " ++ dest = ascii "HOST" ++ 58 :: 32 :: dest := by
    rw [show ascii "HOST: " = ascii "HOST" ++ [58, 32] from by decide, List.append_assoc]
    rfl
  rw [hsp]
  unfold parseHeaderLine
  rw [splitAtByte_first 58 (ascii "HOST") (32 :: dest) (by decide)]
  dsimp only
  rw [if_neg (by decide)]
  have hl : stripLeadingWS (32 :: dest) = dest := by
    rw [show stripLeadingWS (32 :: dest) = stripLeadingWS dest from rfl,
      stripLeadingWS_eq_self dest h]
  rw [hl, stripTrailingWS_eq_self dest h]

theorem not_http_prefix_of_msearch (x : List Nat) :
    (ascii "HTTP/").isPrefixOf (ascii "M-SEARCH * HTTP/1.1\r\nHOST: " ++ x) = false := by
  rw [show ascii "M-SEARCH * HTTP/1.1\r\nHOST: "
      = 77 :: ascii "-SEARCH * HTTP/1.1\r\nHOST: " from by decide,
    show ascii "HTTP/" = 72 :: ascii "TTP/" from by decide, List.cons_append]
  simp [List.isPrefixOf]

theorem parseHeaderLines_cons_succ (m : Nat) (b : Nat) (bs : List Nat)
    (rest : List (List Nat)) :
    parseHeaderLines (m + 1) ((b :: bs) :: rest)
      = (match parseHeaderLine (b :: bs) with
         | none => .error .malformed
         | some h =>
           match parseHeaderLines m rest with
           | .error e => .error e
           | .ok hs => .ok (h :: hs)) := rfl

/-- C7: for every destination address rendering (CR-, LF- and blank-free),
parsing the M-SEARCH text the engine itself formats yields the MSearch
variant whose host, man and st carry exactly the formatted header values. -/
theorem example_msearch_roundtrip (dest : List Nat)
    (h : ∀ b ∈ dest, b ≠ 13 ∧ b ≠ 10 ∧ b ≠ 32 ∧ b ≠ 9) :
    try_parse_ssdp 16 (format_example_msearch dest)
      = .ok (.MSearch ⟨dest, ascii "\"ssdp:discover\"",
          ascii "urn:schemas-upnp-org:device:MediaServer:1"⟩) := by
  have hnows : ∀ b ∈ dest, b ≠ 32 ∧ b ≠ 9 := fun b hb => ⟨(h b hb).2.2.1, (h b hb).2.2.2⟩
  have hform : format_example_msearch dest
      = joinCRLF [ascii "M-SEARCH * HTTP/1.1", ascii "HOST: " ++ dest,
          ascii "ST: urn:schemas-upnp-org:device:MediaServer:1",
          ascii "MAN: \"ssdp:discover\"", ascii "MX: 2", []] := by
    rw [format_example_msearch,
      show ascii "M-SEARCH * HTTP/1.1\r\nHOST: "
        = ascii "M-SEARCH * HTTP/1.1" ++ 13 :: 10 :: ascii "HOST: " from by decide,
      show ascii "\r\nST: urn:schemas-upnp-org:device:MediaServer:1\r\nMAN: \"ssdp:discover\"\r\nMX: 2\r\n\r\n"
        = 13 :: 10 :: (ascii "ST: urn:schemas-upnp-org:device:MediaServer:1"
            ++ 13 :: 10 :: (ascii "MAN: \"ssdp:discover\""
              ++ 13 :: 10 :: (ascii "MX: 2" ++ 13 :: 10 :: (13 :: 10 :: ([] : List Nat)))))
        from by decide]
    simp [joinCRLF, List.append_assoc]
  have hsplit : splitCRLF (format_example_msearch dest)
      = [ascii "M-SEARCH * HTTP/1.1", ascii "HOST: " ++ dest,
         ascii "ST: urn:schemas-upnp-org:device:MediaServer:1",
         ascii "MAN: \"ssdp:discover\"", ascii "MX: 2", [], []] := by
    rw [hform, splitCRLF_joinCRLF]
    · rfl
    · intro l hl
      simp only [List.mem_cons] at hl
      rcases hl with rfl | rfl | rfl | rfl | rfl | rfl | hl
      · decide
      · intro hmem
        rcases List.mem_append.mp hmem with h' | h'
        · exact absurd h' (by decide)
        · exact (h 13 h').1 rfl
      · decide
      · decide
      · decide
      · decide
      · simp at hl
  have hpre : (ascii "HTTP/").isPrefixOf (format_example_msearch dest) = false := by
    rw [format_example_msearch, List.append_assoc]
    exact not_http_prefix_of_msearch _
  have hhost : parseHeaderLine (ascii "HOST: " ++ dest) = some ⟨ascii "HOST", dest⟩ :=
    parseHeaderLine_host dest hnows
  have hrest : parseHeaderLines 15
      [ascii "ST: urn:schemas-upnp-org:device:MediaServer:1",
       ascii "MAN: \"ssdp:discover\"", ascii "MX: 2", [], []]
      = .ok [⟨ascii "ST", ascii "urn:schemas-upnp-org:device:MediaServer:1"⟩,
             ⟨ascii "MAN", ascii "\"ssdp:discover\""⟩, ⟨ascii "MX", ascii "2"⟩] := by
    decide
  have hcons : ascii "HOST: " ++ dest = 72 :: (ascii "OST: " ++ dest) := by
    rw [show ascii "HOST: " = 72 :: ascii "OST: " from by decide, List.cons_append]
  have hlines : parseHeaderLines 16
      [ascii "HOST: " ++ dest,
       ascii "ST: urn:schemas-upnp-org:device:MediaServer:1",
       ascii "MAN: \"ssdp:discover\"", ascii "MX: 2", [], []]
      = .ok [⟨ascii "HOST", dest⟩,
             ⟨ascii "ST", ascii "urn:schemas-upnp-org:device:MediaServer:1"⟩,
             ⟨ascii "MAN", ascii "\"ssdp:discover\""⟩, ⟨ascii "MX", ascii "2"⟩] := by
    rw [show (16 : Nat) = 15 + 1 from by norm_num, hcons, parseHeaderLines_cons_succ,
      ← hcons, hhost, hrest]
  have hH1 : isHostName (ascii "HOST") = true := by decide
  have hS1 : isHostName (ascii "ST") = false := by decide
  have hS2 : isManName (ascii "ST") = false := by decide
  have hS3 : isStName (ascii "ST") = true := by decide
  have hM1 : isHostName (ascii "MAN") = false := by decide
  have hM2 : isManName (ascii "MAN") = true := by decide
  have hX1 : isHostName (ascii "MX") = false := by decide
  have hX2 : isManName (ascii "MX") = false := by decide
  have hX3 : isStName (ascii "MX") = false := by decide
  have hscan : scanMSearchHeaders
      [⟨ascii "HOST", dest⟩,
       ⟨ascii "ST", ascii "urn:schemas-upnp-org:device:MediaServer:1"⟩,
       ⟨ascii "MAN", ascii "\"ssdp:discover\""⟩, ⟨ascii "MX", ascii "2"⟩]
      = ⟨some dest, some (ascii "\"ssdp:discover\""),
         some (ascii "urn:schemas-upnp-org:device:MediaServer:1")⟩ := by
    simp [scanMSearchHeaders, scanStep, hH1, hS1, hS2, hS3, hM1, hM2, hX1, hX2, hX3]
  unfold try_parse_ssdp
  rw [if_neg (show ¬((ascii "HTTP/").isPrefixOf (format_example_msearch dest) = true)
      by simp [hpre])]
  rw [hsplit]
  dsimp only
  rw [show parseRequestLine (ascii "M-SEARCH * HTTP/1.1") = some (ascii "M-SEARCH")
      from by decide]
  dsimp only
  rw [hlines]
  dsimp only
  rw [if_pos rfl, hscan]

/-- C7 witness: the round trip at the concrete destination
239.255.255.250:1900. -/
theorem example_msearch_roundtrip_witness :
    try_parse_ssdp 16 (format_example_msearch (ascii "239.255.255.250:1900"))
      = .ok (.MSearch ⟨ascii "239.255.255.250:1900", ascii "\"ssdp:discover\"",
          ascii "urn:schemas-upnp-org:device:MediaServer:1"⟩) :=
  example_msearch_roundtrip _ (by decide)

end Ssdp
